import Mathlib

/-!
Verification development for the sourcegraph-mcp server.

Shallow embedding of `src/config.py` and `src/server.py`
(`SourcegraphMCPServer` and `ServerConfig`). The backend clients
(`SourcegraphClient`, `SourcegraphContentFetcher`) and the prompt loader are
external collaborators: their behaviour enters as oracle parameters
(`SearchBackend`, `ContentBackend`) and as the already-loaded guide strings in
`ServerState`. Every tool invocation additionally yields a trace of events so
that "the backend was (not) called" and "the raw handler was entered" are
observable propositions.
-/

namespace SourcegraphMCP

/-- Python exception classes relevant to `server.py`, each carrying `str(e)`.
`valueError`, `httpError` and `otherError` stand for `ValueError`,
`requests.exceptions.HTTPError` and any other `Exception`; the remaining three
are the classes of `src/exceptions.py`. All of them are subclasses of
`Exception`, so a bare `except Exception` clause catches every constructor. -/
inductive Exc where
  | valueError (msg : String)
  | httpError (msg : String)
  | serverShutdownError (msg : String)
  | searchError (msg : String)
  | contentFetchError (msg : String)
  | otherError (msg : String)
deriving DecidableEq, Repr

/-- `str(e)` of an exception. -/
def Exc.msg : Exc → String
  | .valueError m => m
  | .httpError m => m
  | .serverShutdownError m => m
  | .searchError m => m
  | .contentFetchError m => m
  | .otherError m => m

def Exc.isValueError : Exc → Bool
  | .valueError _ => true
  | _ => false

def Exc.isHTTPError : Exc → Bool
  | .httpError _ => true
  | _ => false

def Exc.isServerShutdownError : Exc → Bool
  | .serverShutdownError _ => true
  | _ => false

def Exc.isSearchError : Exc → Bool
  | .searchError _ => true
  | _ => false

def Exc.isContentFetchError : Exc → Bool
  | .contentFetchError _ => true
  | _ => false

/-- A raw search result from the backend (shape owned by the external
backend collaborator; opaque here). -/
structure RawResult where
  data : String
deriving DecidableEq, Repr

/-- A formatted search result (shape owned by the external backend
collaborator; opaque here). -/
structure FormattedResult where
  data : String
deriving DecidableEq, Repr

/-- Observable events of one tool invocation: entry into a raw handler and
dispatches to the backend clients. -/
inductive Event where
  | rawSearchEntered
  | rawFetchContentEntered
  | rawSearchPromptGuideEntered
  | backendSearchCalled (query : String) (limit : Int)
  | backendFormatResultsCalled (limit : Int)
  | backendGetContentCalled (repo : String) (path : String)
deriving DecidableEq, Repr

/-- Whether an event is a dispatch to a backend client
(`search_client.search`, `search_client.format_results`,
`content_fetcher.get_content`). -/
def Event.isBackendCall : Event → Bool
  | .backendSearchCalled _ _ => true
  | .backendFormatResultsCalled _ => true
  | .backendGetContentCalled _ _ => true
  | _ => false

/-- The mutable state of a `SourcegraphMCPServer` instance:
`self._shutdown_requested`, the loaded guide strings, and the presence of the
two backend client handles (readiness only ever checks presence, so the
handles are modelled as `Option Unit`). -/
structure ServerState where
  shutdown_requested : Bool
  org_guide : String
  codesearch_guide : String
  search_client : Option Unit
  content_fetcher : Option Unit
deriving DecidableEq, Repr

/-- Behaviour oracle for the external `SourcegraphClient`: each method either
returns a value or raises an exception. -/
structure SearchBackend where
  search : String → Int → Except Exc (List RawResult)
  format_results : List RawResult → Int → Except Exc (List FormattedResult)

/-- Behaviour oracle for the external `SourcegraphContentFetcher`. -/
structure ContentBackend where
  get_content : String → String → Except Exc String

/-- Result of one invocation: the returned (or raised) value, the server
state afterwards, and the event trace of the invocation. -/
structure Call (α : Type) where
  value : α
  state : ServerState
  trace : List Event
deriving Repr

/-- `SourcegraphMCPServer.signal_handler`: its only effect is to set
`self._shutdown_requested = True`. -/
def signal_handler (st : ServerState) : ServerState :=
  { st with shutdown_requested := true }

/-- `SourcegraphMCPServer.fetch_content` (raw handler). Checks the shutdown
flag, then dispatches `content_fetcher.get_content`; converts `ValueError`
into `ContentFetchError("Invalid arguments: path or repository does not
exist")` and any other exception into `ContentFetchError("Error fetching
content")`. -/
def fetch_content (st : ServerState) (cb : ContentBackend) (repo path : String) :
    Call (Except Exc String) :=
  if st.shutdown_requested then
    ⟨.error (.serverShutdownError "Server is shutting down"), st, [.rawFetchContentEntered]⟩
  else
    match cb.get_content repo path with
    | .ok result =>
        ⟨.ok result, st, [.rawFetchContentEntered, .backendGetContentCalled repo path]⟩
    | .error e =>
        if e.isValueError then
          ⟨.error (.contentFetchError "Invalid arguments: path or repository does not exist"),
            st, [.rawFetchContentEntered, .backendGetContentCalled repo path]⟩
        else
          ⟨.error (.contentFetchError "Error fetching content"),
            st, [.rawFetchContentEntered, .backendGetContentCalled repo path]⟩

/-- `SourcegraphMCPServer.search` (raw handler). Checks the shutdown flag,
clamps the limit via `num_results = min(max(1, limit), 100)`, dispatches
`search_client.search` then `search_client.format_results`, and converts
`requests.exceptions.HTTPError` / any other exception into `SearchError`. -/
def search (st : ServerState) (sb : SearchBackend) (query : String)
    (limit : Int := 30) : Call (Except Exc (List FormattedResult)) :=
  if st.shutdown_requested then
    ⟨.error (.serverShutdownError "Server is shutting down"), st, [.rawSearchEntered]⟩
  else
    let num_results := min (max 1 limit) 100
    match sb.search query num_results with
    | .error exc =>
        ⟨.error (if exc.isHTTPError then
            .searchError ("HTTP error during search: " ++ exc.msg)
          else
            .searchError ("Unexpected error during search: " ++ exc.msg)),
          st, [.rawSearchEntered, .backendSearchCalled query num_results]⟩
    | .ok results =>
        match sb.format_results results num_results with
        | .error exc =>
            ⟨.error (if exc.isHTTPError then
                .searchError ("HTTP error during search: " ++ exc.msg)
              else
                .searchError ("Unexpected error during search: " ++ exc.msg)),
              st, [.rawSearchEntered, .backendSearchCalled query num_results,
                .backendFormatResultsCalled num_results]⟩
        | .ok formatted_results =>
            ⟨.ok formatted_results,
              st, [.rawSearchEntered, .backendSearchCalled query num_results,
                .backendFormatResultsCalled num_results]⟩

/-- `SourcegraphMCPServer.search_prompt_guide` (raw handler). Checks the
shutdown flag, then joins: the organisation guide plus a blank-line separator
when that guide is non-empty (Python string truthiness), the code-search
guide, and the instruction referencing the objective. -/
def search_prompt_guide (st : ServerState) (objective : String) :
    Call (Except Exc String) :=
  if st.shutdown_requested then
    ⟨.error (.serverShutdownError "Server is shutting down"), st,
      [.rawSearchPromptGuideEntered]⟩
  else
    let prompt_parts : List String :=
      (if st.org_guide ≠ "" then [st.org_guide, "\n\n"] else []) ++
        [st.codesearch_guide,
          "\nGiven this guide create a Sourcegraph query for " ++ objective ++
            " and call the search tool accordingly."]
    ⟨.ok (String.join prompt_parts), st, [.rawSearchPromptGuideEntered]⟩

/-- `SourcegraphMCPServer._safe_fetch_content`: the registered tool adapter.
Maps `ServerShutdownError` to `""`, `ContentFetchError` to its message, and
any other exception to `"error fetching content"`. -/
def safe_fetch_content (st : ServerState) (cb : ContentBackend) (repo path : String) :
    Call String :=
  let c := fetch_content st cb repo path
  match c.value with
  | .ok s => ⟨s, c.state, c.trace⟩
  | .error e =>
      if e.isServerShutdownError then ⟨"", c.state, c.trace⟩
      else if e.isContentFetchError then ⟨e.msg, c.state, c.trace⟩
      else ⟨"error fetching content", c.state, c.trace⟩

/-- `SourcegraphMCPServer._safe_search`: the registered tool adapter. Maps
`ServerShutdownError`, `SearchError` and any other exception to `[]`. -/
def safe_search (st : ServerState) (sb : SearchBackend) (query : String)
    (limit : Int := 30) : Call (List FormattedResult) :=
  let c := search st sb query limit
  match c.value with
  | .ok rs => ⟨rs, c.state, c.trace⟩
  | .error _ => ⟨[], c.state, c.trace⟩

/-- `SourcegraphMCPServer._safe_search_prompt_guide`: the registered tool
adapter. Maps `ServerShutdownError` to `"Server is shutting down"` and any
other exception to `"Error generating search guide"`. -/
def safe_search_prompt_guide (st : ServerState) (objective : String) :
    Call String :=
  let c := search_prompt_guide st objective
  match c.value with
  | .ok s => ⟨s, c.state, c.trace⟩
  | .error e =>
      if e.isServerShutdownError then ⟨"Server is shutting down", c.state, c.trace⟩
      else ⟨"Error generating search guide", c.state, c.trace⟩

/-- An HTTP response produced by the health endpoints: status code plus the
JSON body as an ordered field list. -/
structure HttpResponse where
  status_code : Nat
  body : List (String × String)
deriving DecidableEq, Repr

/-- The `GET /health` handler: unconditionally
`200 {"status": "ok", "service": "sourcegraph-mcp"}`. The second component is
its (empty) backend-event trace. -/
def health_check (_st : ServerState) : HttpResponse × List Event :=
  (⟨200, [("status", "ok"), ("service", "sourcegraph-mcp")]⟩, [])

/-- The `GET /ready` handler. `fault` models an exception raised inside the
`try` body (the code's `except Exception` branch answers
`503 {"status": "error", "reason": str(e)}`); `none` means the checks run
normally. Missing `search_client` is reported before missing
`content_fetcher`, mirroring the order of the checks in the code. The second
component is the (empty) backend-event trace: readiness only inspects local
object presence. -/
def readiness_check (st : ServerState) (fault : Option String) :
    HttpResponse × List Event :=
  match fault with
  | some e => (⟨503, [("status", "error"), ("reason", e)]⟩, [])
  | none =>
      if st.search_client.isNone then
        (⟨503, [("status", "not_ready"), ("reason", "search_client_unavailable")]⟩, [])
      else if st.content_fetcher.isNone then
        (⟨503, [("status", "not_ready"), ("reason", "content_fetcher_unavailable")]⟩, [])
      else
        (⟨200, [("status", "ready"), ("service", "sourcegraph-mcp"),
          ("backend", "sourcegraph")]⟩, [])

/-- The process environment, as `os.getenv` sees it. -/
def Env : Type := String → Option String

/-- Whitespace as stripped by Python's `int()` builtin. -/
def isSpaceChar (c : Char) : Bool :=
  c = ' ' || c = '\t' || c = '\n' || c = '\r'

/-- The numeric value of a list of decimal digit characters. -/
def digitsVal (ds : List Char) : Int :=
  ds.foldl (fun acc c => acc * 10 + ((c.toNat : Int) - ('0'.toNat : Int))) 0

/-- Approximation of Python's `int()` builtin (an external collaborator) on
the strings this server reads: optionally signed decimal literals with
surrounding whitespace allowed; raises `ValueError` otherwise. -/
def pyInt (s : String) : Except String Int :=
  let cs := ((s.data.dropWhile isSpaceChar).reverse.dropWhile isSpaceChar).reverse
  let parseDigits := fun (ds : List Char) (sign : Int) =>
    if ds ≠ [] ∧ ds.all (fun c => c.isDigit) then
      Except.ok (sign * digitsVal ds)
    else
      Except.error ("invalid literal for int() with base 10: " ++ s)
  match cs with
  | '-' :: rest => parseDigits rest (-1)
  | '+' :: rest => parseDigits rest 1
  | _ => parseDigits cs 1

/-- `ServerConfig._get_required_env`: `os.getenv(key)` followed by
`if not value`, so both an unset variable and one set to the empty string
raise the same descriptive `ValueError`. -/
def get_required_env (env : Env) (key : String) : Except String String :=
  match env key with
  | none => .error ("Required environment variable " ++ key ++ " is not set")
  | some v =>
      if v = "" then .error ("Required environment variable " ++ key ++ " is not set")
      else .ok v

/-- The configuration record built by `ServerConfig.__init__`. -/
structure ServerConfig where
  sse_port : Int
  streamable_http_port : Int
  sourcegraph_endpoint : String
  sourcegraph_token : String
deriving DecidableEq, Repr

/-- `ServerConfig.__init__` as a fallible loader over the environment, in the
order the constructor reads the variables. -/
def ServerConfig.load (env : Env) : Except String ServerConfig := do
  let sse_port ← pyInt ((env "MCP_SSE_PORT").getD "8000")
  let streamable_http_port ← pyInt ((env "MCP_STREAMABLE_HTTP_PORT").getD "8080")
  let sourcegraph_endpoint ← get_required_env env "SRC_ENDPOINT"
  let sourcegraph_token := (env "SRC_ACCESS_TOKEN").getD ""
  pure ⟨sse_port, streamable_http_port, sourcegraph_endpoint, sourcegraph_token⟩

/-- The text segment after the last newline of a string (the last line). -/
def lastLine (s : String) : String :=
  ⟨(s.data.reverse.takeWhile (fun c => c ≠ '\n')).reverse⟩

/-- A stub search backend that always succeeds with empty result lists. -/
def stubSearchBackend : SearchBackend where
  search := fun _ _ => .ok []
  format_results := fun _ _ => .ok []

/-- A stub content backend that always returns fixed file text. -/
def stubContentBackend : ContentBackend where
  get_content := fun _ _ => .ok "stub content"

/-- A server state in which graceful shutdown has been requested. -/
def shutdownState : ServerState := ⟨true, "", "GUIDE", some (), some ()⟩

/-- A normally running server state with an empty organisation guide. -/
def runningState : ServerState := ⟨false, "", "GUIDE", some (), some ()⟩

/-- The clamped number of results `min(max(1, limit), 100)` computed by
`SourcegraphMCPServer.search`. -/
def clampLimit (limit : Int) : Int := min (max 1 limit) 100

theorem search_num_results (st : ServerState) (sb : SearchBackend) (q : String)
    (l : Int) : search st sb q l =
      if st.shutdown_requested then
        ⟨.error (.serverShutdownError "Server is shutting down"), st, [.rawSearchEntered]⟩
      else
        match sb.search q (clampLimit l) with
        | .error exc =>
            ⟨.error (if exc.isHTTPError then
                .searchError ("HTTP error during search: " ++ exc.msg)
              else
                .searchError ("Unexpected error during search: " ++ exc.msg)),
              st, [.rawSearchEntered, .backendSearchCalled q (clampLimit l)]⟩
        | .ok results =>
            match sb.format_results results (clampLimit l) with
            | .error exc =>
                ⟨.error (if exc.isHTTPError then
                    .searchError ("HTTP error during search: " ++ exc.msg)
                  else
                    .searchError ("Unexpected error during search: " ++ exc.msg)),
                  st, [.rawSearchEntered, .backendSearchCalled q (clampLimit l),
                    .backendFormatResultsCalled (clampLimit l)]⟩
            | .ok formatted_results =>
                ⟨.ok formatted_results,
                  st, [.rawSearchEntered, .backendSearchCalled q (clampLimit l),
                    .backendFormatResultsCalled (clampLimit l)]⟩ := rfl

theorem safe_search_trace_shape (st : ServerState) (sb : SearchBackend)
    (q : String) (l : Int) (h : st.shutdown_requested = false) :
    (safe_search st sb q l).trace =
        [.rawSearchEntered, .backendSearchCalled q (clampLimit l)] ∨
    (safe_search st sb q l).trace =
        [.rawSearchEntered, .backendSearchCalled q (clampLimit l),
          .backendFormatResultsCalled (clampLimit l)] := by
  unfold safe_search
  rw [search_num_results, h]
  simp only [Bool.false_eq_true, if_false]
  cases hs : sb.search q (clampLimit l) with
  | error e => left; rfl
  | ok rs =>
      dsimp only
      cases hf : sb.format_results rs (clampLimit l) with
      | error e => right; rfl
      | ok fr => right; rfl

/-- C1: while the shutdown flag is true, each registered tool returns its
documented shutdown fallback (empty list for `search`, empty string for
`fetch_content`, `"Server is shutting down"` for `search_prompt_guide`) and
no backend call is dispatched. -/
theorem shutdown_calls_return_fallbacks_without_backend
    (st : ServerState) (sb : SearchBackend) (cb : ContentBackend)
    (q : String) (l : Int) (repo path obj : String)
    (h : st.shutdown_requested = true) :
    (safe_search st sb q l).value = [] ∧
    (safe_fetch_content st cb repo path).value = "" ∧
    (safe_search_prompt_guide st obj).value = "Server is shutting down" ∧
    (safe_search st sb q l).trace.all (fun ev => !ev.isBackendCall) = true ∧
    (safe_fetch_content st cb repo path).trace.all (fun ev => !ev.isBackendCall) = true ∧
    (safe_search_prompt_guide st obj).trace.all (fun ev => !ev.isBackendCall) = true := by
  simp [safe_search, search, safe_fetch_content, fetch_content,
    safe_search_prompt_guide, search_prompt_guide, h,
    Exc.isServerShutdownError, Event.isBackendCall]

theorem shutdown_calls_return_fallbacks_without_backend_witness :
    shutdownState.shutdown_requested = true ∧
    (safe_search shutdownState stubSearchBackend "q" 30).value = [] ∧
    (safe_fetch_content shutdownState stubContentBackend "repo" "path").value = "" ∧
    (safe_search_prompt_guide shutdownState "obj").value = "Server is shutting down" :=
  have h := shutdown_calls_return_fallbacks_without_backend
    shutdownState stubSearchBackend stubContentBackend "q" 30 "repo" "path" "obj" rfl
  ⟨rfl, h.1, h.2.1, h.2.2.1⟩

/-- C2 counterexample: with the shutdown flag set, each safe-call adapter
still enters its raw handler (the shutdown check lives inside the raw
handler, which raises `ServerShutdownError`), so "the raw handler function is
not called at all" is false. -/
theorem adapter_shutdown_still_enters_raw_handler :
    Event.rawSearchEntered ∈
      (safe_search shutdownState stubSearchBackend "q" 30).trace ∧
    Event.rawFetchContentEntered ∈
      (safe_fetch_content shutdownState stubContentBackend "repo" "path").trace ∧
    Event.rawSearchPromptGuideEntered ∈
      (safe_search_prompt_guide shutdownState "obj").trace := by
  refine ⟨?_, ?_, ?_⟩ <;> simp [safe_search, search, safe_fetch_content,
    fetch_content, safe_search_prompt_guide, search_prompt_guide,
    shutdownState, Exc.isServerShutdownError]

/-- C2 amended: with the shutdown flag true each adapter returns the tool's
shutdown fallback and dispatches no backend call; the shutdown check is
performed inside the raw handler, which is entered exactly once and raises,
and the adapter maps that exception to the fallback. -/
theorem adapter_shutdown_fallback_via_raw_handler
    (st : ServerState) (sb : SearchBackend) (cb : ContentBackend)
    (q : String) (l : Int) (repo path obj : String)
    (h : st.shutdown_requested = true) :
    safe_search st sb q l = ⟨[], st, [.rawSearchEntered]⟩ ∧
    safe_fetch_content st cb repo path = ⟨"", st, [.rawFetchContentEntered]⟩ ∧
    safe_search_prompt_guide st obj =
      ⟨"Server is shutting down", st, [.rawSearchPromptGuideEntered]⟩ := by
  refine ⟨?_, ?_, ?_⟩ <;>
    simp [safe_search, search, safe_fetch_content, fetch_content,
      safe_search_prompt_guide, search_prompt_guide, h, Exc.isServerShutdownError]

theorem adapter_shutdown_fallback_via_raw_handler_witness :
    shutdownState.shutdown_requested = true ∧
    safe_search shutdownState stubSearchBackend "q" 30 =
      ⟨[], shutdownState, [.rawSearchEntered]⟩ :=
  ⟨rfl, (adapter_shutdown_fallback_via_raw_handler shutdownState stubSearchBackend
    stubContentBackend "q" 30 "repo" "path" "obj" rfl).1⟩

/-- C3: every `search` call that reaches the backend passes the clamp of the
caller's limit into `[1, 100]`: below 1 behaves as 1, above 100 behaves as
100, in-range limits pass unchanged, an omitted limit defaults to 30, and no
other limit value is ever handed to the backend. -/
theorem search_limit_clamped_to_backend
    (st : ServerState) (sb : SearchBackend) (q : String) (l : Int)
    (h : st.shutdown_requested = false) :
    Event.backendSearchCalled q (min (max 1 l) 100) ∈ (safe_search st sb q l).trace ∧
    (l < 1 → Event.backendSearchCalled q 1 ∈ (safe_search st sb q l).trace) ∧
    (100 < l → Event.backendSearchCalled q 100 ∈ (safe_search st sb q l).trace) ∧
    (1 ≤ l → l ≤ 100 → Event.backendSearchCalled q l ∈ (safe_search st sb q l).trace) ∧
    Event.backendSearchCalled q 30 ∈ (safe_search st sb q).trace ∧
    (∀ l2, Event.backendSearchCalled q l2 ∈ (safe_search st sb q l).trace →
      l2 = min (max 1 l) 100) := by
  have hmem : Event.backendSearchCalled q (clampLimit l) ∈ (safe_search st sb q l).trace := by
    rcases safe_search_trace_shape st sb q l h with h1 | h1 <;> simp [h1]
  refine ⟨hmem, ?_, ?_, ?_, ?_, ?_⟩
  · intro hl
    have hc : clampLimit l = 1 := by unfold clampLimit; omega
    simpa only [hc] using hmem
  · intro hl
    have hc : clampLimit l = 100 := by unfold clampLimit; omega
    simpa only [hc] using hmem
  · intro hl1 hl2
    have hc : clampLimit l = l := by unfold clampLimit; omega
    simpa only [hc] using hmem
  · have h30 : Event.backendSearchCalled q (clampLimit 30) ∈
        (safe_search st sb q 30).trace := by
      rcases safe_search_trace_shape st sb q 30 h with h1 | h1 <;> simp [h1]
    have hc : clampLimit 30 = 30 := by decide
    simpa only [hc] using h30
  · intro l2 hl2
    rcases safe_search_trace_shape st sb q l h with h1 | h1 <;>
      · rw [h1] at hl2
        simp [clampLimit] at hl2
        omega

theorem search_limit_clamped_to_backend_witness :
    runningState.shutdown_requested = false ∧ ((0 : Int) < 1 ∧ (100 : Int) < 500) ∧
    Event.backendSearchCalled "q" 1 ∈
      (safe_search runningState stubSearchBackend "q" 0).trace ∧
    Event.backendSearchCalled "q" 100 ∈
      (safe_search runningState stubSearchBackend "q" 500).trace :=
  ⟨rfl, ⟨by decide, by decide⟩,
    (search_limit_clamped_to_backend runningState stubSearchBackend "q" 0 rfl).2.1
      (by decide),
    (search_limit_clamped_to_backend runningState stubSearchBackend "q" 500 rfl).2.2.1
      (by decide)⟩

/-- A search backend whose HTTP layer always fails. -/
def failingSearchBackend : SearchBackend where
  search := fun _ _ => .error (.httpError "500 Server Error")
  format_results := fun _ _ => .error (.httpError "500 Server Error")

/-- A search backend returning one raw result, formatted verbatim. -/
def okSearchBackend : SearchBackend where
  search := fun _ _ => .ok [⟨"raw1"⟩]
  format_results := fun rs _ => .ok (rs.map fun r => ⟨r.data⟩)

/-- A content backend that raises `ValueError` (bad repo or path). -/
def badPathContentBackend : ContentBackend where
  get_content := fun _ _ => .error (.valueError "repo not found")

/-- A content backend that raises a generic exception. -/
def crashingContentBackend : ContentBackend where
  get_content := fun _ _ => .error (.otherError "boom")

theorem safe_search_state_eq (st : ServerState) (sb : SearchBackend)
    (q : String) (l : Int) : (safe_search st sb q l).state = st := by
  unfold safe_search
  rw [search_num_results]
  cases hsr : st.shutdown_requested with
  | true => rfl
  | false =>
      dsimp only
      cases hs : sb.search q (clampLimit l) with
      | error e => rfl
      | ok rs =>
          dsimp only
          cases hf : sb.format_results rs (clampLimit l) <;> rfl

theorem safe_search_value_of_fail (st : ServerState) (sb : SearchBackend)
    (q : String) (l : Int) (e : Exc) (hshut : st.shutdown_requested = false)
    (hfail : sb.search q (clampLimit l) = .error e ∨
      ∃ rs, sb.search q (clampLimit l) = .ok rs ∧
        sb.format_results rs (clampLimit l) = .error e) :
    (safe_search st sb q l).value = [] := by
  unfold safe_search
  rcases hfail with h1 | ⟨rs, h1, h2⟩
  · simp [search_num_results, hshut, h1]
  · simp [search_num_results, hshut, h1, h2]

theorem safe_search_value_of_ok (st : ServerState) (sb : SearchBackend)
    (q : String) (l : Int) (rs : List RawResult) (frs : List FormattedResult)
    (hshut : st.shutdown_requested = false)
    (hok : sb.search q (clampLimit l) = .ok rs)
    (hfmt : sb.format_results rs (clampLimit l) = .ok frs) :
    (safe_search st sb q l).value = frs := by
  unfold safe_search
  simp [search_num_results, hshut, hok, hfmt]

/-- C4: when the content backend raises `ValueError`, the registered
`fetch_content` tool returns the fixed string
`"Invalid arguments: path or repository does not exist"`; when it raises any
other exception the tool returns the distinct generic string
`"Error fetching content"`; in both cases a plain string (never an
exception) crosses the tool boundary. -/
theorem fetch_content_error_strings
    (st : ServerState) (cb : ContentBackend) (repo path : String) (e : Exc)
    (hshut : st.shutdown_requested = false)
    (hraise : cb.get_content repo path = .error e) :
    (safe_fetch_content st cb repo path).value =
      (if e.isValueError then "Invalid arguments: path or repository does not exist"
        else "Error fetching content") ∧
    "Invalid arguments: path or repository does not exist" ≠ "Error fetching content" := by
  constructor
  · cases he : e.isValueError <;>
      simp [safe_fetch_content, fetch_content, hshut, hraise, he,
        Exc.isServerShutdownError, Exc.isContentFetchError, Exc.msg]
  · decide

theorem fetch_content_error_strings_witness :
    runningState.shutdown_requested = false ∧
    badPathContentBackend.get_content "r" "p" = .error (.valueError "repo not found") ∧
    crashingContentBackend.get_content "r" "p" = .error (.otherError "boom") ∧
    (safe_fetch_content runningState badPathContentBackend "r" "p").value =
      "Invalid arguments: path or repository does not exist" ∧
    (safe_fetch_content runningState crashingContentBackend "r" "p").value =
      "Error fetching content" :=
  ⟨rfl, rfl, rfl,
    by simpa [Exc.isValueError] using
      (fetch_content_error_strings runningState badPathContentBackend "r" "p"
        (.valueError "repo not found") rfl rfl).1,
    by simpa [Exc.isValueError] using
      (fetch_content_error_strings runningState crashingContentBackend "r" "p"
        (.otherError "boom") rfl rfl).1⟩

/-- C5: a backend failure inside `search` (in `search_client.search` or in
`search_client.format_results`) makes the registered tool return the empty
list without propagating an exception, leaves the server state unchanged,
and a subsequent `search` call against a non-failing backend returns that
backend's formatted results. -/
theorem search_failure_isolated_between_calls
    (st : ServerState) (sb sb2 : SearchBackend) (q q2 : String) (l l2 : Int)
    (e : Exc) (rs2 : List RawResult) (frs2 : List FormattedResult)
    (hshut : st.shutdown_requested = false)
    (hfail : sb.search q (clampLimit l) = .error e ∨
      ∃ rs, sb.search q (clampLimit l) = .ok rs ∧
        sb.format_results rs (clampLimit l) = .error e)
    (hok : sb2.search q2 (clampLimit l2) = .ok rs2)
    (hfmt : sb2.format_results rs2 (clampLimit l2) = .ok frs2) :
    (safe_search st sb q l).value = [] ∧
    (safe_search st sb q l).state = st ∧
    (safe_search (safe_search st sb q l).state sb2 q2 l2).value = frs2 := by
  refine ⟨safe_search_value_of_fail st sb q l e hshut hfail,
    safe_search_state_eq st sb q l, ?_⟩
  rw [safe_search_state_eq st sb q l]
  exact safe_search_value_of_ok st sb2 q2 l2 rs2 frs2 hshut hok hfmt

theorem search_failure_isolated_between_calls_witness :
    runningState.shutdown_requested = false ∧
    failingSearchBackend.search "q" (clampLimit 30) =
      .error (.httpError "500 Server Error") ∧
    okSearchBackend.search "q2" (clampLimit 30) = .ok [⟨"raw1"⟩] ∧
    okSearchBackend.format_results [⟨"raw1"⟩] (clampLimit 30) = .ok [⟨"raw1"⟩] ∧
    (safe_search runningState failingSearchBackend "q" 30).value = [] ∧
    (safe_search (safe_search runningState failingSearchBackend "q" 30).state
      okSearchBackend "q2" 30).value = [⟨"raw1"⟩] :=
  have h := search_failure_isolated_between_calls runningState failingSearchBackend
    okSearchBackend "q" "q2" 30 30 (.httpError "500 Server Error") [⟨"raw1"⟩]
    [⟨"raw1"⟩] rfl (Or.inl rfl) rfl rfl
  ⟨rfl, rfl, rfl, rfl, h.1, h.2.2⟩

/-- C7: `search_prompt_guide` never mutates the server state, so calling it
twice with the same objective (guide texts and shutdown flag unchanged in
between) yields byte-identical outputs. -/
theorem prompt_guide_idempotent (st : ServerState) (obj : String) :
    (safe_search_prompt_guide st obj).state = st ∧
    (safe_search_prompt_guide (safe_search_prompt_guide st obj).state obj).value =
      (safe_search_prompt_guide st obj).value := by
  have hst : (safe_search_prompt_guide st obj).state = st := by
    unfold safe_search_prompt_guide search_prompt_guide
    cases hsr : st.shutdown_requested <;> simp [Exc.isServerShutdownError]
  exact ⟨hst, by rw [hst]⟩

/-- An environment holding only a non-empty backend endpoint. -/
def endpointOnlyEnv : Env :=
  fun k => if k = "SRC_ENDPOINT" then some "https://example.test" else none

/-- The empty environment. -/
def emptyEnv : Env := fun _ => none

/-- An environment where `SRC_ENDPOINT` is set to the empty string. -/
def emptyEndpointEnv : Env :=
  fun k => if k = "SRC_ENDPOINT" then some "" else none

/-- C8: with the default ports in effect (both port variables unset),
configuration loading fails with an error naming `SRC_ENDPOINT` when that
required setting is absent, and with `SRC_ENDPOINT` set to a non-empty value
and the optional settings absent it yields the documented defaults: SSE port
8000, streamable-HTTP port 8080, empty access token. -/
theorem config_load_required_and_defaults (env : Env)
    (hsse : env "MCP_SSE_PORT" = none)
    (hhttp : env "MCP_STREAMABLE_HTTP_PORT" = none) :
    (env "SRC_ENDPOINT" = none →
      ServerConfig.load env =
        .error "Required environment variable SRC_ENDPOINT is not set") ∧
    (∀ v, env "SRC_ENDPOINT" = some v → v ≠ "" → env "SRC_ACCESS_TOKEN" = none →
      ServerConfig.load env = .ok ⟨8000, 8080, v, ""⟩) := by
  have t1 : pyInt "8000" = .ok 8000 := by rfl
  have t2 : pyInt "8080" = .ok 8080 := by rfl
  constructor
  · intro hep
    simp [ServerConfig.load, get_required_env, hsse, hhttp, hep, t1, t2,
      Except.bind, bind]
  · intro v hep hv htok
    simp [ServerConfig.load, get_required_env, hsse, hhttp, hep, hv, htok,
      t1, t2, Except.bind, bind, pure, Except.pure]

theorem config_load_required_and_defaults_witness :
    (emptyEnv "MCP_SSE_PORT" = none ∧ emptyEnv "SRC_ENDPOINT" = none ∧
      ServerConfig.load emptyEnv =
        .error "Required environment variable SRC_ENDPOINT is not set") ∧
    (endpointOnlyEnv "SRC_ENDPOINT" = some "https://example.test" ∧
      ServerConfig.load endpointOnlyEnv =
        .ok ⟨8000, 8080, "https://example.test", ""⟩) :=
  ⟨⟨rfl, rfl, (config_load_required_and_defaults emptyEnv rfl rfl).1 rfl⟩,
    ⟨rfl, (config_load_required_and_defaults endpointOnlyEnv rfl rfl).2
      "https://example.test" rfl (by decide) rfl⟩⟩

/-- C9: `GET /health` answers `200 {"status":"ok","service":"sourcegraph-mcp"}`
unconditionally; `GET /ready` answers 200 exactly when both backend client
handles are present and no exception occurs while checking, answers 503
naming the missing dependency otherwise (the `search_client` check runs
first), answers 503 with the failure message when the check raises, and
neither endpoint ever dispatches a backend call. -/
theorem health_and_readiness_endpoints (st : ServerState) (fault : Option String) :
    health_check st = (⟨200, [("status", "ok"), ("service", "sourcegraph-mcp")]⟩, []) ∧
    (st.search_client = none →
      readiness_check st none =
        (⟨503, [("status", "not_ready"), ("reason", "search_client_unavailable")]⟩, [])) ∧
    (st.search_client ≠ none → st.content_fetcher = none →
      readiness_check st none =
        (⟨503, [("status", "not_ready"), ("reason", "content_fetcher_unavailable")]⟩, [])) ∧
    (st.search_client ≠ none → st.content_fetcher ≠ none →
      readiness_check st none =
        (⟨200, [("status", "ready"), ("service", "sourcegraph-mcp"),
          ("backend", "sourcegraph")]⟩, [])) ∧
    (∀ msg, readiness_check st (some msg) =
      (⟨503, [("status", "error"), ("reason", msg)]⟩, [])) ∧
    ((readiness_check st fault).1.status_code = 200 ↔
      fault = none ∧ st.search_client ≠ none ∧ st.content_fetcher ≠ none) ∧
    (readiness_check st fault).2 = [] ∧ (health_check st).2 = [] := by
  refine ⟨rfl, ?_, ?_, ?_, fun msg => rfl, ?_, ?_, rfl⟩
  · intro hsc
    simp [readiness_check, hsc]
  · intro hsc hcf
    simp [readiness_check, Option.isNone_iff_eq_none, hsc, hcf]
  · intro hsc hcf
    simp [readiness_check, Option.isNone_iff_eq_none, hsc, hcf]
  · cases fault with
    | some msg => simp [readiness_check]
    | none =>
        cases hsc : st.search_client with
        | none => simp [readiness_check, hsc]
        | some u =>
            cases hcf : st.content_fetcher with
            | none => simp [readiness_check, hsc, hcf]
            | some v => simp [readiness_check, hsc, hcf]
  · cases fault with
    | some msg => rfl
    | none =>
        cases hsc : st.search_client with
        | none => simp [readiness_check, hsc]
        | some u =>
            cases hcf : st.content_fetcher with
            | none => simp [readiness_check, hsc, hcf]
            | some v => simp [readiness_check, hsc, hcf]

theorem health_and_readiness_endpoints_witness :
    (health_check ⟨false, "", "G", none, none⟩).1.status_code = 200 ∧
    (⟨false, "", "G", none, none⟩ : ServerState).search_client = none ∧
    (readiness_check ⟨false, "", "G", none, none⟩ none).1.status_code = 503 ∧
    (readiness_check ⟨false, "", "G", some (), some ()⟩ none).1.status_code = 200 :=
  ⟨by rw [(health_and_readiness_endpoints ⟨false, "", "G", none, none⟩ none).1],
    rfl,
    by rw [(health_and_readiness_endpoints ⟨false, "", "G", none, none⟩ none).2.1 rfl],
    by rw [(health_and_readiness_endpoints ⟨false, "", "G", some (), some ()⟩
      none).2.2.2.1 (by decide) (by decide)]⟩

/-- C10: `SRC_ENDPOINT` set to the empty string triggers exactly the same
missing-required-setting error as an unset `SRC_ENDPOINT` (Python's
`if not value` treats both alike), so every successfully constructed
configuration has a non-empty backend endpoint. -/
theorem empty_endpoint_treated_as_missing (env env2 : Env)
    (h1 : env "SRC_ENDPOINT" = some "")
    (h2 : env2 "SRC_ENDPOINT" = none) :
    get_required_env env "SRC_ENDPOINT" =
      .error "Required environment variable SRC_ENDPOINT is not set" ∧
    get_required_env env "SRC_ENDPOINT" = get_required_env env2 "SRC_ENDPOINT" ∧
    (env "MCP_SSE_PORT" = none → env "MCP_STREAMABLE_HTTP_PORT" = none →
      ServerConfig.load env =
        .error "Required environment variable SRC_ENDPOINT is not set") ∧
    (∀ env3 cfg, ServerConfig.load env3 = .ok cfg → cfg.sourcegraph_endpoint ≠ "") := by
  refine ⟨by simp [get_required_env, h1], by simp [get_required_env, h1, h2], ?_, ?_⟩
  · intro hsse hhttp
    have t1 : pyInt "8000" = .ok 8000 := by rfl
    have t2 : pyInt "8080" = .ok 8080 := by rfl
    simp [ServerConfig.load, get_required_env, hsse, hhttp, h1, t1, t2,
      Except.bind, bind]
  · intro env3 cfg hload
    unfold ServerConfig.load at hload
    cases hp1 : pyInt ((env3 "MCP_SSE_PORT").getD "8000") with
    | error e => simp [hp1, Except.bind, bind] at hload
    | ok p1 =>
        cases hp2 : pyInt ((env3 "MCP_STREAMABLE_HTTP_PORT").getD "8080") with
        | error e => simp [hp1, hp2, Except.bind, bind] at hload
        | ok p2 =>
            cases hep : env3 "SRC_ENDPOINT" with
            | none => simp [hp1, hp2, hep, get_required_env, Except.bind, bind] at hload
            | some v =>
                by_cases hv : v = ""
                · simp [hp1, hp2, hep, hv, get_required_env, Except.bind, bind] at hload
                · simp [hp1, hp2, hep, hv, get_required_env, Except.bind, bind,
                    pure, Except.pure] at hload
                  subst hload
                  simpa using hv

theorem empty_endpoint_treated_as_missing_witness :
    emptyEndpointEnv "SRC_ENDPOINT" = some "" ∧ emptyEnv "SRC_ENDPOINT" = none ∧
    ServerConfig.load emptyEndpointEnv =
      .error "Required environment variable SRC_ENDPOINT is not set" :=
  ⟨rfl, rfl,
    (empty_endpoint_treated_as_missing emptyEndpointEnv emptyEnv rfl rfl).2.2.1 rfl rfl⟩

/-- The instruction text appended after the final newline of a prompt guide. -/
def promptTail (objective : String) : String :=
  "Given this guide create a Sourcegraph query for " ++ objective ++
    " and call the search tool accordingly."

/-- A running server state with a non-empty organisation guide. -/
def orgState : ServerState := ⟨false, "ORG GUIDE", "GUIDE", some (), some ()⟩

theorem takeWhile_all_append {p : Char → Bool} (l1 : List Char) (x : Char)
    (l2 : List Char) (h1 : ∀ a ∈ l1, p a = true) (hx : p x = false) :
    (l1 ++ x :: l2).takeWhile p = l1 := by
  induction l1 with
  | nil => simp [List.takeWhile_cons, hx]
  | cons a l ih =>
      have ha : p a = true := h1 a (by simp)
      simp only [List.cons_append, List.takeWhile_cons, ha, if_true]
      rw [ih (fun b hb => h1 b (by simp [hb]))]

theorem newline_not_mem_lastLine (s : String) : '\n' ∉ (lastLine s).data := by
  intro h
  have h2 : '\n' ∈ s.data.reverse.takeWhile (fun c => c ≠ '\n') := by
    have hd : (lastLine s).data =
        (s.data.reverse.takeWhile (fun c => c ≠ '\n')).reverse := rfl
    rw [hd, List.mem_reverse] at h
    exact h
  have h3 := List.mem_takeWhile_imp h2
  simp at h3

theorem lastLine_append_tail (a tail : String) (h : '\n' ∉ tail.data) :
    lastLine (a ++ "\n" ++ tail) = tail := by
  apply String.ext
  show ((a ++ "\n" ++ tail).data.reverse.takeWhile (fun c => c ≠ '\n')).reverse
    = tail.data
  have hd : (a ++ "\n" ++ tail).data = a.data ++ '\n' :: tail.data := by
    have hn : ("\n" : String).data = ['\n'] := rfl
    simp [String.data_append, hn]
  have hrev : (a.data ++ '\n' :: tail.data).reverse =
      tail.data.reverse ++ '\n' :: a.data.reverse := by
    simp
  rw [hd, hrev, takeWhile_all_append _ _ _ ?hall (by simp), List.reverse_reverse]
  case hall =>
    intro c hc
    rw [List.mem_reverse] at hc
    simp only [ne_eq, decide_eq_true_eq]
    exact fun he => h (he ▸ hc)

theorem newline_not_mem_promptTail (obj : String) (hnl : '\n' ∉ obj.data) :
    '\n' ∉ (promptTail obj).data := by
  intro h
  unfold promptTail at h
  simp only [String.data_append, List.mem_append] at h
  rcases h with (h | h) | h
  · exact absurd h (by decide)
  · exact hnl h
  · exact absurd h (by decide)

/-- C6 counterexample: for the objective `"a\nb"` (which contains a newline)
with an empty organisation guide, the returned text does not end in a line
containing the objective as a literal substring: a line contains no newline,
so the claim fails as stated for every objective. -/
theorem prompt_guide_newline_objective_counterexample :
    ¬ ∃ p q, lastLine (safe_search_prompt_guide runningState "a\nb").value =
        p ++ "a\nb" ++ q := by
  rintro ⟨p, q, h⟩
  have hmem : '\n' ∈ (p ++ "a\nb" ++ q).data := by
    have hab : '\n' ∈ ("a\nb" : String).data := by decide
    simp only [String.data_append, List.mem_append]
    exact Or.inl (Or.inr hab)
  rw [← h] at hmem
  exact newline_not_mem_lastLine _ hmem

/-- C6 amended: for every objective string that contains no newline
character, `search_prompt_guide` returns, with an empty organisation guide,
exactly the code-search guide followed by the instruction (no
organisation-guide preamble), whose last line contains the objective as a
literal substring; and with a non-empty organisation guide, the guide's
exact text followed by a blank-line separator, then the code-search guide,
then the instruction line. -/
theorem prompt_guide_structure (st : ServerState) (obj : String)
    (hshut : st.shutdown_requested = false)
    (hnl : '\n' ∉ obj.data) :
    (st.org_guide = "" →
      (safe_search_prompt_guide st obj).value =
        st.codesearch_guide ++ "\n" ++ promptTail obj ∧
      lastLine (safe_search_prompt_guide st obj).value = promptTail obj ∧
      ∃ p q, promptTail obj = p ++ obj ++ q) ∧
    (st.org_guide ≠ "" →
      (safe_search_prompt_guide st obj).value =
        (st.org_guide ++ "\n\n" ++ st.codesearch_guide) ++ "\n" ++ promptTail obj ∧
      (∃ rest, (safe_search_prompt_guide st obj).value =
        st.org_guide ++ "\n\n" ++ rest) ∧
      lastLine (safe_search_prompt_guide st obj).value = promptTail obj) := by
  have hnil : ("" : String).data = [] := rfl
  have hn1 : ("\n" : String).data = ['\n'] := rfl
  have hn2 : ("\n\n" : String).data = ['\n', '\n'] := rfl
  have hsplit : ("\nGiven this guide create a Sourcegraph query for " : String).data =
      '\n' :: ("Given this guide create a Sourcegraph query for " : String).data := by
    decide
  constructor
  · intro horg
    have hval : (safe_search_prompt_guide st obj).value =
        st.codesearch_guide ++ "\n" ++ promptTail obj := by
      apply String.ext
      simp [safe_search_prompt_guide, search_prompt_guide, hshut, horg,
        String.join, String.data_append, promptTail, hnil, hn1, hsplit]
    refine ⟨hval, ?_, "Given this guide create a Sourcegraph query for ",
      " and call the search tool accordingly.", rfl⟩
    rw [hval]
    exact lastLine_append_tail _ _ (newline_not_mem_promptTail obj hnl)
  · intro horg
    have hval : (safe_search_prompt_guide st obj).value =
        (st.org_guide ++ "\n\n" ++ st.codesearch_guide) ++ "\n" ++ promptTail obj := by
      apply String.ext
      simp [safe_search_prompt_guide, search_prompt_guide, hshut, horg,
        String.join, String.data_append, promptTail, hnil, hn1, hn2, hsplit]
    refine ⟨hval, ⟨st.codesearch_guide ++ "\n" ++ promptTail obj, ?_⟩, ?_⟩
    · rw [hval]
      apply String.ext
      simp [String.data_append]
    · rw [hval]
      exact lastLine_append_tail _ _ (newline_not_mem_promptTail obj hnl)

theorem prompt_guide_structure_witness :
    runningState.shutdown_requested = false ∧ ('\n' ∉ "refactor auth".data) ∧
    runningState.org_guide = "" ∧ orgState.org_guide ≠ "" ∧
    (safe_search_prompt_guide runningState "refactor auth").value =
      "GUIDE" ++ "\n" ++ promptTail "refactor auth" ∧
    (safe_search_prompt_guide orgState "refactor auth").value =
      ("ORG GUIDE" ++ "\n\n" ++ "GUIDE") ++ "\n" ++ promptTail "refactor auth" :=
  ⟨rfl, by decide, rfl, by decide,
    ((prompt_guide_structure runningState "refactor auth" rfl (by decide)).1 rfl).1,
    ((prompt_guide_structure orgState "refactor auth" rfl (by decide)).2
      (by decide)).1⟩

end SourcegraphMCP
